import Mathlib

/- Shallow embedding of the NoteTake client.

   Source of truth: js/app.js (state management, note cache synchronization
   with the Firestore subscription, debounced autosave, deletion flow,
   auth-state handler), js/ui.js (view switching) and js/gemini.js
   (model fallback loop). DOM reads and writes of the editor fields are
   modelled as two string fields of the application state (the title and
   content inputs are static elements of index.html, present at all times);
   Firestore calls are modelled as entries appended to explicit call logs. -/

namespace NoteTake

/-- A note document as cached in notesData: the document id plus the
title and content fields. -/
structure Note where
  id : String
  title : String
  content : String
deriving DecidableEq, Repr

/-- The four views switched by UI.showView in js/ui.js. -/
inductive View where
  | login
  | register
  | dashboard
  | editor
deriving DecidableEq, Repr

/-- One updateDoc call issued by the autosave timer: the user uid, the
target note id, and the written title and content. -/
structure WriteCall where
  uid : String
  noteId : String
  title : String
  content : String
deriving DecidableEq, Repr

/-- The module-level mutable state of js/app.js, together with the two
editor DOM fields and logs of the remote calls issued. -/
structure AppState where
  currentUser : Option String
  currentNoteId : Option String
  noteToDeleteId : Option String
  notesData : List Note
  searchTerm : String
  autosavePending : Bool
  domTitle : String
  domContent : String
  view : View
  isEditMode : Bool
  modalDeleteOpen : Bool
  writes : List WriteCall
  deleteCalls : List (String × String)
  errorLog : List String
deriving DecidableEq, Repr

/-- JavaScript String.prototype.toLowerCase, modelled as a character-wise
lowercasing of the string. -/
def jsToLower (s : String) : String :=
  ⟨s.data.map Char.toLower⟩

/-- JavaScript String.prototype.includes: substring containment. -/
def containsSub (hay needle : String) : Bool :=
  decide (needle.data <:+: hay.data)

/-- The filter applied by app.renderDashboard: keep the notes whose
lowercased title or lowercased content contains the lowercased search
term as a substring. -/
def filterNotes (notes : List Note) (searchTerm : String) : List Note :=
  notes.filter fun note =>
    let term := jsToLower searchTerm
    containsSub (jsToLower note.title) term || containsSub (jsToLower note.content) term

/-- app.showDashboard: clear the current note id and show the dashboard. -/
def showDashboard (s : AppState) : AppState :=
  { s with currentNoteId := none, view := View.dashboard }

/-- app.openNote: set the current note id, look the note up in the cache;
if absent fall back to the dashboard (remote-delete race), else populate
the editor fields from the cached note, force edit mode and show the
editor view. -/
def openNote (noteId : String) (s : AppState) : AppState :=
  let s1 := { s with currentNoteId := some noteId }
  match s1.notesData.find? (fun n => n.id == noteId) with
  | none => showDashboard s1
  | some note =>
      { s1 with
        domTitle := note.title
        domContent := note.content
        isEditMode := true
        view := View.editor }

/-- app.handleInput: clear any pending autosave timer and start a new one
(a single timeout handle, so at most one timer is ever pending). -/
def handleInput (s : AppState) : AppState :=
  { s with autosavePending := true }

/-- The body of the autosave timeout in app.handleInput, run when the
timer fires: abort if no user or no note is open, otherwise issue one
updateDoc call with the current note id and the editor fields as read at
fire time. -/
def fireTimer (s : AppState) : AppState :=
  if s.autosavePending then
    let s1 := { s with autosavePending := false }
    match s1.currentUser, s1.currentNoteId with
    | some uid, some nid =>
        { s1 with writes := s1.writes ++ [⟨uid, nid, s1.domTitle, s1.domContent⟩] }
    | _, _ => s1
  else s

/-- app.requestDelete: record the pending id and open the confirmation
modal (no-op on an empty id, which is falsy in JavaScript). -/
def requestDeleteNote (id : String) (s : AppState) : AppState :=
  if id = "" then s
  else { s with noteToDeleteId := some id, modalDeleteOpen := true }

/-- app.closeModal: clear the pending delete id and hide the modal. -/
def closeModal (s : AppState) : AppState :=
  { s with noteToDeleteId := none, modalDeleteOpen := false }

/-- app.confirmDelete: no-op unless a delete is pending and a user is
authenticated; otherwise issue the deleteDoc call (recorded in
deleteCalls whether it succeeds or fails). On success, navigate to the
dashboard when the deleted note is the open one, then close the modal;
on failure (the catch branch) nothing further happens. -/
def confirmDelete (ok : Bool) (s : AppState) : AppState :=
  match s.noteToDeleteId, s.currentUser with
  | some did, some uid =>
      let s1 := { s with deleteCalls := s.deleteCalls ++ [(uid, did)] }
      if ok then
        let s2 := if s1.currentNoteId = some did then showDashboard s1 else s1
        closeModal s2
      else s1
  | _, _ => s

/-- The onSnapshot success callback: replace notesData wholesale with the
documents of the delivered snapshot (then re-render, which reads state
but does not change it). -/
def snapshotHandler (docs : List Note) (s : AppState) : AppState :=
  { s with notesData := docs }

/-- The onSnapshot error callback: console.error only. The fatal flag
distinguishes an auth-scoped permission failure in the event model; the
handler receives the error but uses it only for the log line. -/
def snapshotErrorHandler (_fatal : Bool) (msg : String) (s : AppState) : AppState :=
  { s with errorLog := s.errorLog ++ ["Firestore Listen Error: " ++ msg] }

/-- The onAuthStateChanged branch for an authenticated user: set
currentUser, show the dashboard and (re)subscribe; snapshots then arrive
as separate events. -/
def signInHandler (uid : String) (s : AppState) : AppState :=
  { s with currentUser := some uid, view := View.dashboard }

/-- The onAuthStateChanged branch for a signed-out user: clear
currentUser, show the login view and empty notesData. No other state is
touched. -/
def signOutHandler (s : AppState) : AppState :=
  { s with currentUser := none, view := View.login, notesData := [] }

/-- The external events the client reacts to. An editInput event is the
user typing into the title or content field: the DOM now holds the typed
strings and the input listener calls app.handleInput. -/
inductive Event where
  | snapshot (docs : List Note)
  | snapshotError (fatal : Bool) (msg : String)
  | editInput (title content : String)
  | openNoteEv (id : String)
  | backToDashboard
  | fire
  | requestDeleteEv (id : String)
  | cancelDelete
  | confirmDeleteEv (ok : Bool)
  | signInEv (uid : String)
  | signOutEv
deriving DecidableEq, Repr

/-- One event-loop step of the client. -/
def step (s : AppState) (e : Event) : AppState :=
  match e with
  | .snapshot docs => snapshotHandler docs s
  | .snapshotError fatal msg => snapshotErrorHandler fatal msg s
  | .editInput t c => handleInput { s with domTitle := t, domContent := c }
  | .openNoteEv id => openNote id s
  | .backToDashboard => showDashboard s
  | .fire => fireTimer s
  | .requestDeleteEv id => requestDeleteNote id s
  | .cancelDelete => closeModal s
  | .confirmDeleteEv ok => confirmDelete ok s
  | .signInEv uid => signInHandler uid s
  | .signOutEv => signOutHandler s

/-- Run a sequence of events from a state. -/
def run (s : AppState) (es : List Event) : AppState :=
  es.foldl step s

namespace Gemini

/-- The model identifiers tried by GeminiService.generateContent, in
source order. -/
def modelsToTry : List String :=
  ["gemini-2.5-flash", "gemini-2.5-flash-001"]

/-- The for-loop of GeminiService.generateContent: try each model in
order against the remote API (modelled by an oracle mapping a model name
to the outcome of its generateContent call), return the text of the
first success, remember the last error, and after exhausting the list
throw the aggregate error built from the last error message. -/
def tryLoop (oracle : String → Except String String) :
    List String → Option String → Except String String
  | [], lastErr =>
      Except.error ("All models failed. Last error: " ++ lastErr.getD "Unknown error")
  | m :: rest, _lastErr =>
      match oracle m with
      | Except.ok t => Except.ok t
      | Except.error e => tryLoop oracle rest (some e)

/-- GeminiService.generateContent: fail up front when the client was not
initialized, otherwise run the fallback loop over modelsToTry with no
last error yet. -/
def generateContent (clientReady : Bool) (oracle : String → Except String String) :
    Except String String :=
  if clientReady then tryLoop oracle modelsToTry none
  else Except.error "Gemini Client not initialized. Please check your API Key."

end Gemini

/-- Sample note used by concrete witnesses and counterexamples. -/
def noteA : Note :=
  ⟨"a", "Groceries", "milk, eggs"⟩

/-- Second sample note. -/
def noteB : Note :=
  ⟨"b", "Plan", "roadmap"⟩

/-- A concrete reachable-looking application state: user u1 signed in,
note a open in the editor, cache holding two notes, no pending timer. -/
def sampleState : AppState :=
  { currentUser := some "u1"
    currentNoteId := some "a"
    noteToDeleteId := none
    notesData := [noteA, noteB]
    searchTerm := ""
    autosavePending := false
    domTitle := "Groceries"
    domContent := "milk, eggs"
    view := View.editor
    isEditMode := true
    modalDeleteOpen := false
    writes := []
    deleteCalls := []
    errorLog := [] }

/-- The sample state after requesting deletion of note a. -/
def sampleDeleteState : AppState :=
  { sampleState with noteToDeleteId := some "a", modalDeleteOpen := true }

lemma jsToLower_empty : jsToLower "" = "" :=
  rfl

lemma containsSub_empty (hay : String) : containsSub hay "" = true :=
  decide_eq_true List.nil_infix

lemma containsSub_append_right (p e : String) : containsSub (p ++ e) e = true := by
  unfold containsSub
  rw [String.data_append]
  exact decide_eq_true (List.suffix_append p.data e.data).isInfix

/-- C1: after any history of events, delivering snapshot N leaves the
note cache equal to exactly the ordered contents of snapshot N: no
record of the previous snapshot or of local state survives, and no
merging or incremental patching occurs. -/
theorem cache_equals_last_snapshot (s : AppState) (es : List Event) (snap : List Note) :
    (run s (es ++ [Event.snapshot snap])).notesData = snap := by
  simp [run, List.foldl_append, step, snapshotHandler]

/-- C4: the dashboard filter is a pure projection of the cache and the
search term: the empty term returns the cache unchanged, any term
returns the order-preserving subsequence (a sublist) of exactly those
notes whose lowercased title or content contains the lowercased term as
a substring. -/
theorem renderDashboard_filter_projection (notes : List Note) (term : String) :
    filterNotes notes "" = notes
    ∧ List.Sublist (filterNotes notes term) notes
    ∧ (∀ n, n ∈ filterNotes notes term ↔
        n ∈ notes ∧ ((jsToLower term).data <:+: (jsToLower n.title).data
          ∨ (jsToLower term).data <:+: (jsToLower n.content).data)) := by
  refine ⟨?_, List.filter_sublist notes, ?_⟩
  · apply List.filter_eq_self.mpr
    intro note _
    simp [jsToLower_empty, containsSub_empty]
  · intro n
    simp only [filterNotes, List.mem_filter, containsSub, Bool.or_eq_true, decide_eq_true_eq]

/-- C2: if an edit is scheduled while note A is open and a different
note B (present in the cache) becomes the current note before the
debounce timer fires, the single update call issued at fire time targets
B with the title and content the editor holds for B (its cached values),
never note A's edited title and content: an edit made to A is not
persisted into B. The timer body reads both the target id and the
payload at fire time, and opening B overwrites the editor fields from
the cache. -/
theorem autosave_not_misdirected (s : AppState) (uid aId tA cA bId : String) (b : Note)
    (hu : s.currentUser = some uid)
    (ha : s.currentNoteId = some aId)
    (hab : aId ≠ bId)
    (hb : s.notesData.find? (fun n => n.id == bId) = some b)
    (hdiff : ¬ (tA = b.title ∧ cA = b.content)) :
    ∃ w : WriteCall,
      (run s [Event.editInput tA cA, Event.openNoteEv bId, Event.fire]).writes
          = s.writes ++ [w]
        ∧ w.noteId = bId ∧ w.title = b.title ∧ w.content = b.content
        ∧ ¬ (w.title = tA ∧ w.content = cA) := by
  refine ⟨⟨uid, bId, b.title, b.content⟩, ?_, rfl, rfl, rfl, ?_⟩
  · simp [run, step, handleInput, openNote, fireTimer, hb, hu]
  · rintro ⟨h1, h2⟩
    exact hdiff ⟨h1.symm, h2.symm⟩

/-- Witness for C2 at a concrete state: editing note a and then opening
note b before the timer fires yields one write carrying b's cached title
and content, not the edited strings. -/
theorem autosave_not_misdirected_witness :
    ∃ w : WriteCall,
      (run sampleState [Event.editInput "Groceries!" "milk, eggs, bread",
          Event.openNoteEv "b", Event.fire]).writes
          = sampleState.writes ++ [w]
        ∧ w.noteId = "b" ∧ w.title = noteB.title ∧ w.content = noteB.content
        ∧ ¬ (w.title = "Groceries!" ∧ w.content = "milk, eggs, bread") :=
  autosave_not_misdirected sampleState "u1" "a" "Groceries!" "milk, eggs, bread" "b" noteB
    rfl rfl (by decide) (by decide) (by decide)

/-- C3: two edits scheduled within one debounce window (the second
arriving before the timer fires) produce exactly one update call, and it
carries the title and content of the second edit; a further fire adds
nothing; and if at fire time no identity is authenticated or no note is
open, no write is issued at all. -/
theorem debounce_single_write (s : AppState) (t1 c1 t2 c2 : String) :
    (∀ uid nid, s.currentUser = some uid → s.currentNoteId = some nid →
        (run s [Event.editInput t1 c1, Event.editInput t2 c2, Event.fire]).writes
            = s.writes ++ [⟨uid, nid, t2, c2⟩]
          ∧ (run s [Event.editInput t1 c1, Event.editInput t2 c2, Event.fire, Event.fire]).writes
            = s.writes ++ [⟨uid, nid, t2, c2⟩])
    ∧ ((s.currentUser = none ∨ s.currentNoteId = none) →
        (run s [Event.editInput t1 c1, Event.editInput t2 c2, Event.fire]).writes
          = s.writes) := by
  constructor
  · intro uid nid hu hn
    constructor
    · simp [run, step, handleInput, fireTimer, hu, hn]
    · simp [run, step, handleInput, fireTimer, hu, hn]
  · rintro (h | h)
    · cases hn : s.currentNoteId <;>
        simp [run, step, handleInput, fireTimer, h, hn]
    · cases hu : s.currentUser <;>
        simp [run, step, handleInput, fireTimer, h, hu]

/-- Witness for C3 at a concrete state: two edits then a fire produce
exactly the one write carrying the second edit. -/
theorem debounce_single_write_witness :
    (run sampleState [Event.editInput "T1" "C1", Event.editInput "T2" "C2",
        Event.fire]).writes
      = sampleState.writes ++ [⟨"u1", "a", "T2", "C2"⟩] :=
  ((debounce_single_write sampleState "T1" "C1" "T2" "C2").1 "u1" "a" rfl rfl).1

/-- C5 counterexample: at a concrete state with note a open, the
sign-out handler empties the cache but leaves the currently open note id
set to a, so the editor session is not fully reset as claimed. -/
theorem signOut_keeps_note_id_cex :
    (step sampleState Event.signOutEv).notesData = []
    ∧ (step sampleState Event.signOutEv).currentNoteId = some "a"
    ∧ ¬ (step sampleState Event.signOutEv).currentNoteId = none := by
  refine ⟨rfl, rfl, by decide⟩

/-- C5 amended: on a sign-out event the cache becomes empty, the user is
cleared and the login view is shown, but the currently open note id and
the pending-delete id are left untouched by the handler. -/
theorem signOut_clears_cache_only (s : AppState) :
    (step s Event.signOutEv).notesData = []
    ∧ (step s Event.signOutEv).currentUser = none
    ∧ (step s Event.signOutEv).view = View.login
    ∧ (step s Event.signOutEv).currentNoteId = s.currentNoteId
    ∧ (step s Event.signOutEv).noteToDeleteId = s.noteToDeleteId :=
  ⟨rfl, rfl, rfl, rfl, rfl⟩

/-- C6: opening a note id that is absent from the cache lands on the
dashboard with no current note; opening an id found in the cache enters
the editor on that id in edit mode. -/
theorem openNote_requires_cached_id (s : AppState) (id : String) :
    (s.notesData.find? (fun n => n.id == id) = none →
        (step s (Event.openNoteEv id)).view = View.dashboard
        ∧ (step s (Event.openNoteEv id)).currentNoteId = none)
    ∧ (∀ note, s.notesData.find? (fun n => n.id == id) = some note →
        (step s (Event.openNoteEv id)).view = View.editor
        ∧ (step s (Event.openNoteEv id)).currentNoteId = some id
        ∧ (step s (Event.openNoteEv id)).isEditMode = true) := by
  constructor
  · intro h
    simp [step, openNote, showDashboard, h]
  · intro note h
    simp [step, openNote, h]

/-- Witness for C6: opening an id not in the sample cache stays on the
dashboard with no current note. -/
theorem openNote_requires_cached_id_witness :
    (step sampleState (Event.openNoteEv "zzz")).view = View.dashboard
    ∧ (step sampleState (Event.openNoteEv "zzz")).currentNoteId = none :=
  (openNote_requires_cached_id sampleState "zzz").1 (by decide)

/-- C7: with a pending delete id and an authenticated user, confirming
deletion issues the delete call and clears the pending id and the modal;
if the deleted id is the currently open note the state moves to the
dashboard with no current note, otherwise the open note and view are
unchanged. -/
theorem confirmDelete_success_transitions (s : AppState) (uid did : String)
    (hd : s.noteToDeleteId = some did) (hu : s.currentUser = some uid) :
    (step s (Event.confirmDeleteEv true)).deleteCalls = s.deleteCalls ++ [(uid, did)]
    ∧ (step s (Event.confirmDeleteEv true)).noteToDeleteId = none
    ∧ (step s (Event.confirmDeleteEv true)).modalDeleteOpen = false
    ∧ (s.currentNoteId = some did →
        (step s (Event.confirmDeleteEv true)).currentNoteId = none
        ∧ (step s (Event.confirmDeleteEv true)).view = View.dashboard)
    ∧ (¬ s.currentNoteId = some did →
        (step s (Event.confirmDeleteEv true)).currentNoteId = s.currentNoteId
        ∧ (step s (Event.confirmDeleteEv true)).view = s.view) := by
  by_cases hc : s.currentNoteId = some did <;>
    simp [step, confirmDelete, hd, hu, closeModal, showDashboard, hc]

/-- Witness for C7: confirming deletion of the open note a clears the
pending id and moves to the dashboard. -/
theorem confirmDelete_success_transitions_witness :
    (step sampleDeleteState (Event.confirmDeleteEv true)).noteToDeleteId = none
    ∧ (step sampleDeleteState (Event.confirmDeleteEv true)).currentNoteId = none
    ∧ (step sampleDeleteState (Event.confirmDeleteEv true)).view = View.dashboard :=
  ⟨(confirmDelete_success_transitions sampleDeleteState "u1" "a" rfl rfl).2.1,
   ((confirmDelete_success_transitions sampleDeleteState "u1" "a" rfl rfl).2.2.2.1 rfl).1,
   ((confirmDelete_success_transitions sampleDeleteState "u1" "a" rfl rfl).2.2.2.1 rfl).2⟩

/-- C8 counterexample: at a concrete state with a nonempty cache, a
fatal (auth-scoped permission) subscription error leaves the cache in
its last-known state rather than clearing it defensively as claimed. -/
theorem fatal_error_cache_not_cleared_cex :
    (step sampleState
        (Event.snapshotError true "Missing or insufficient permissions.")).notesData
      = [noteA, noteB]
    ∧ ¬ ([noteA, noteB] = ([] : List Note)) := by
  refine ⟨rfl, by decide⟩

/-- C8 amended: every subscription error is logged and handled totally
(the handler only appends a log line), and the cache is left in its
last-known state for every error, fatal or not: the handler ignores the
severity and never clears the cache defensively. -/
theorem snapshotError_logs_only (s : AppState) (fatal : Bool) (msg : String) :
    (step s (Event.snapshotError fatal msg)).notesData = s.notesData
    ∧ (step s (Event.snapshotError fatal msg)).errorLog
        = s.errorLog ++ ["Firestore Listen Error: " ++ msg]
    ∧ step s (Event.snapshotError fatal msg) = step s (Event.snapshotError (!fatal) msg)
    ∧ (step s (Event.snapshotError fatal msg)).currentUser = s.currentUser
    ∧ (step s (Event.snapshotError fatal msg)).currentNoteId = s.currentNoteId :=
  ⟨rfl, rfl, rfl, rfl, rfl⟩

/-- C9: with the client initialized, generateContent tries the
configured models sequentially and returns the text of the first model
call that succeeds; it reports a failure exactly when every model in the
list fails, and the aggregate failure message contains the last
underlying error message as a substring. -/
theorem generateContent_fallback_chain (oracle : String → Except String String) :
    (∀ t, oracle "gemini-2.5-flash" = Except.ok t →
        Gemini.generateContent true oracle = Except.ok t)
    ∧ (∀ e t, oracle "gemini-2.5-flash" = Except.error e →
        oracle "gemini-2.5-flash-001" = Except.ok t →
        Gemini.generateContent true oracle = Except.ok t)
    ∧ ((∃ msg, Gemini.generateContent true oracle = Except.error msg)
        ↔ ∀ m ∈ Gemini.modelsToTry, ∃ e, oracle m = Except.error e)
    ∧ (∀ e1 e2, oracle "gemini-2.5-flash" = Except.error e1 →
        oracle "gemini-2.5-flash-001" = Except.error e2 →
        Gemini.generateContent true oracle
            = Except.error ("All models failed. Last error: " ++ e2)
          ∧ containsSub ("All models failed. Last error: " ++ e2) e2 = true) := by
  refine ⟨?_, ?_, ?_, ?_⟩
  · intro t h1
    simp [Gemini.generateContent, Gemini.modelsToTry, Gemini.tryLoop, h1]
  · intro e t h1 h2
    simp [Gemini.generateContent, Gemini.modelsToTry, Gemini.tryLoop, h1, h2]
  · constructor
    · rintro ⟨msg, hmsg⟩ m hm
      cases h1 : oracle "gemini-2.5-flash" with
      | ok t =>
          simp [Gemini.generateContent, Gemini.modelsToTry, Gemini.tryLoop, h1] at hmsg
      | error e1 =>
          cases h2 : oracle "gemini-2.5-flash-001" with
          | ok t =>
              simp [Gemini.generateContent, Gemini.modelsToTry, Gemini.tryLoop, h1, h2] at hmsg
          | error e2 =>
              simp only [Gemini.modelsToTry, List.mem_cons, List.not_mem_nil, or_false] at hm
              rcases hm with hm | hm
              · exact ⟨e1, hm ▸ h1⟩
              · exact ⟨e2, hm ▸ h2⟩
    · intro hall
      obtain ⟨e1, h1⟩ := hall "gemini-2.5-flash" (by simp [Gemini.modelsToTry])
      obtain ⟨e2, h2⟩ := hall "gemini-2.5-flash-001" (by simp [Gemini.modelsToTry])
      exact ⟨"All models failed. Last error: " ++ e2,
        by simp [Gemini.generateContent, Gemini.modelsToTry, Gemini.tryLoop, h1, h2]⟩
  · intro e1 e2 h1 h2
    refine ⟨?_, containsSub_append_right _ _⟩
    simp [Gemini.generateContent, Gemini.modelsToTry, Gemini.tryLoop, h1, h2]

/-- Witness for C9: an oracle failing on both models produces the
aggregate error ending in the last model's error message. -/
theorem generateContent_fallback_chain_witness :
    Gemini.generateContent true (fun m => Except.error ("fail: " ++ m))
      = Except.error ("All models failed. Last error: " ++ "fail: gemini-2.5-flash-001") :=
  ((generateContent_fallback_chain (fun m => Except.error ("fail: " ++ m))).2.2.2
    ("fail: " ++ "gemini-2.5-flash") ("fail: " ++ "gemini-2.5-flash-001") rfl rfl).1

/-- C10: confirming deletion with no pending id or no authenticated user
is a complete no-op (no delete call, state unchanged); and when the
issued delete call fails, the call is logged but the pending id, the
modal, the open note, the view, the cache and the write log are all
unchanged. -/
theorem confirmDelete_guard_and_failure (s : AppState) :
    ((s.noteToDeleteId = none ∨ s.currentUser = none) →
        step s (Event.confirmDeleteEv true) = s
        ∧ step s (Event.confirmDeleteEv false) = s)
    ∧ (∀ uid did, s.noteToDeleteId = some did → s.currentUser = some uid →
        (step s (Event.confirmDeleteEv false)).deleteCalls = s.deleteCalls ++ [(uid, did)]
        ∧ (step s (Event.confirmDeleteEv false)).noteToDeleteId = some did
        ∧ (step s (Event.confirmDeleteEv false)).modalDeleteOpen = s.modalDeleteOpen
        ∧ (step s (Event.confirmDeleteEv false)).currentNoteId = s.currentNoteId
        ∧ (step s (Event.confirmDeleteEv false)).view = s.view
        ∧ (step s (Event.confirmDeleteEv false)).notesData = s.notesData
        ∧ (step s (Event.confirmDeleteEv false)).writes = s.writes) := by
  constructor
  · rintro (h | h)
    · cases hu : s.currentUser <;>
        exact ⟨by simp [step, confirmDelete, h, hu], by simp [step, confirmDelete, h, hu]⟩
    · cases hd : s.noteToDeleteId <;>
        exact ⟨by simp [step, confirmDelete, h, hd], by simp [step, confirmDelete, h, hd]⟩
  · intro uid did hd hu
    simp [step, confirmDelete, hd, hu]

/-- Witness for C10: at the sample state, where no delete is pending,
confirming deletion changes nothing whether the remote call would
succeed or fail. -/
theorem confirmDelete_guard_and_failure_witness :
    step sampleState (Event.confirmDeleteEv true) = sampleState
    ∧ step sampleState (Event.confirmDeleteEv false) = sampleState :=
  (confirmDelete_guard_and_failure sampleState).1 (Or.inl rfl)

end NoteTake
